import Mathlib

/-!
Verification of the article-resolution pipeline of `src/backend/app.py`
(a small Flask service that resolves RSS/Atom feed entries into articles
with a summary).

The embedding is shallow: the pure data flow of `http_get`,
`extract_text_from_link` and the per-entry loop body of `get_feed` is
translated into Lean functions.  External effects (the HTTP library
`requests.get`, and the HTML parsing done by BeautifulSoup) are modelled
as oracles passed in explicitly:

* `requests.get` on attempt `i` is an arbitrary function
  `Nat → Except ε ρ` (success with a response, or a raised transport
  error);
* the BeautifulSoup step "parse `res.text`, decompose
  script/style/noscript tags, yield `stripped_strings`" is an arbitrary
  function `String → Except String (List String)` (parse failure, or the
  list of stripped strings).

Python strings are modelled as Lean `String`; Python slicing `s[:n]`
(by code points) is `pySlice`, Python substring test `a in b` is `pyIn`,
Python `s or t` on strings is `pyOr` (truthiness = non-emptiness).
The float `backoff` (default `0.6`) is modelled as the rational `3/5`;
only ordering and doubling of the delays matter to the properties here,
and both are exact in either representation.
-/

/-- Default value of `MAX_ARTICLES = int(os.getenv("MAX_ARTICLES", "10"))`. -/
def MAX_ARTICLES : Nat := 10

/-- Default value of `EXTRACT_CHAR_LIMIT = int(os.getenv("EXTRACT_CHAR_LIMIT", "1500"))`. -/
def EXTRACT_CHAR_LIMIT : Nat := 1500

/-- Default value of `SUMMARY_CHAR_LIMIT = int(os.getenv("SUMMARY_CHAR_LIMIT", "400"))`. -/
def SUMMARY_CHAR_LIMIT : Nat := 400

/-- The literal fallback string `"No summary available."` from `get_feed`. -/
def FALLBACK : String := "No summary available."

/-- Python slicing `s[:n]`: the first `n` code points of `s`. -/
def pySlice (s : String) (n : Nat) : String :=
  (s.toList.take n).asString

/-- Python `s.strip()`: drop leading and trailing whitespace. -/
def pyStrip (s : String) : String :=
  (((s.toList.dropWhile Char.isWhitespace).reverse.dropWhile
    Char.isWhitespace).reverse).asString

/-- Python `s or t` on strings: `s` if it is truthy (non-empty), else `t`. -/
def pyOr (s t : String) : String :=
  if s = "" then t else s

/-- Does `hay` start with `needle`?  (Helper for the substring test.) -/
def startsWithChars : List Char → List Char → Bool
  | [], _ => true
  | _ :: _, [] => false
  | c :: cs, d :: ds => c = d && startsWithChars cs ds

/-- Is `needle` a contiguous infix of `hay`?  (Helper for the substring test.) -/
def hasInfixChars (needle : List Char) : List Char → Bool
  | [] => needle.isEmpty
  | c :: cs => startsWithChars needle (c :: cs) || hasInfixChars needle cs

/-- Python substring test `sub in hay` on strings. -/
def pyIn (sub hay : String) : Bool :=
  hasInfixChars sub.toList hay.toList

/-- The observable behaviour of one call to `http_get`: how many GET
attempts were performed, the sequence of `time.sleep` delays (in
seconds, in order), and the final outcome — `ok` a response, or the
raised `last_err` (`none` models Python's initial `last_err = None`,
which is never raised because the loop always runs at least once). -/
structure HttpTrace (ε ρ : Type) where
  attempts : Nat
  sleeps : List ℚ
  result : Except (Option ε) ρ

/-- The body of `http_get`'s `for i in range(retries + 1)` loop, from
iteration `i` with `fuel` iterations left and `last_err = last`:

    try:
        return requests.get(url, timeout=REQUEST_TIMEOUT, headers=HEADERS)
    except Exception as e:
        last_err = e
        time.sleep(backoff * (2 ** i))

and after the loop, `raise last_err`.  `get i` is the outcome of the
`requests.get` call on attempt `i`. -/
def httpGetGo (get : Nat → Except ε ρ) (backoff : ℚ) :
    Nat → Nat → Option ε → HttpTrace ε ρ
  | _, 0, last => ⟨0, [], Except.error last⟩
  | i, fuel + 1, _last =>
    match get i with
    | Except.ok r => ⟨1, [], Except.ok r⟩
    | Except.error e =>
      let rest := httpGetGo get backoff (i + 1) fuel (some e)
      ⟨rest.attempts + 1, backoff * 2 ^ i :: rest.sleeps, rest.result⟩

/-- Model of `def http_get(url, retries=2, backoff=0.6)` from `src/backend/app.py`,
with `requests.get` abstracted as the oracle `get` (indexed by attempt
number) and the URL dropped (it is only forwarded to the oracle). -/
def http_get (get : Nat → Except ε ρ) (retries : Nat := 2)
    (backoff : ℚ := 3 / 5) : HttpTrace ε ρ :=
  httpGetGo get backoff 0 (retries + 1) none

/-- The part of a `requests` response that `extract_text_from_link`
reads: the `Content-Type` header (`none` when the header is absent) and
the decoded body `res.text`. -/
structure Response where
  contentType : Option String
  text : String

/-- The external world one feed request sees:
`fetch url` is the overall outcome of `http_get(url)` — a response, or
the transport error it raises after exhausting its retries; `soup html`
is the outcome of the BeautifulSoup step on body `html` — a parse error,
or the list of `stripped_strings` after `script`/`style`/`noscript`
decomposition. -/
structure World where
  fetch : String → Except String Response
  soup : String → Except String (List String)

/-- Model of `def extract_text_from_link(url)` from `src/backend/app.py`:

    try:
        res = http_get(url)
        ctype = res.headers.get("Content-Type", "")
        if "text/html" not in ctype:
            return None
        soup = BeautifulSoup(res.text, "html.parser")
        for tag in soup(["script", "style", "noscript"]):
            tag.decompose()
        text = " ".join(s.strip() for s in soup.stripped_strings)
        return text[:EXTRACT_CHAR_LIMIT]
    except Exception as e:
        app.logger.warning(...)
        return None

A raised exception from `http_get` or from parsing is caught and
becomes `none`. -/
def extract_text_from_link (w : World) (url : String) : Option String :=
  match w.fetch url with
  | Except.error _ => none
  | Except.ok res =>
    let ctype := res.contentType.getD ""
    if pyIn "text/html" ctype = false then none
    else
      match w.soup res.text with
      | Except.error _ => none
      | Except.ok strs =>
        some (pySlice (String.intercalate " " (strs.map pyStrip))
          EXTRACT_CHAR_LIMIT)

/-- One parsed feed entry as `get_feed` reads it: each field is `none`
when the key is absent from the entry dict (so Python's
`entry.get(k, d)` is `field.getD d`). -/
structure FeedEntry where
  title : Option String
  link : Option String
  summary : Option String
  description : Option String
  published : Option String
  updated : Option String

/-- One article dict appended to `articles` by `get_feed`. -/
structure Article where
  title : String
  link : String
  summary : String
  published : String
deriving Repr, DecidableEq

/-- The body of `get_feed`'s `for entry in feed.entries[:MAX_ARTICLES]`
loop, building one article:

    title = entry.get("title", "Untitled")
    link = entry.get("link", "")
    summary = entry.get("summary", "") or entry.get("description", "")
    if (not summary) and link:
        text = extract_text_from_link(link)
        summary = (text[:SUMMARY_CHAR_LIMIT] if text else "No summary available.")
    articles.append({..., "published": entry.get("published", "") or entry.get("updated", "")})
-/
def resolve_entry (w : World) (entry : FeedEntry) : Article :=
  let title := entry.title.getD "Untitled"
  let link := entry.link.getD ""
  let summary0 := pyOr (entry.summary.getD "") (entry.description.getD "")
  let summary :=
    if summary0 = "" ∧ link ≠ "" then
      match extract_text_from_link w link with
      | some t => if t = "" then FALLBACK else pySlice t SUMMARY_CHAR_LIMIT
      | none => FALLBACK
    else summary0
  { title := title, link := link, summary := summary,
    published := pyOr (entry.published.getD "") (entry.updated.getD "") }

/-- The article list assembled by `get_feed`'s loop: starting from
`articles = []`, iterate over `feed.entries[:MAX_ARTICLES]` appending
one resolved article per entry. -/
def feed_articles (w : World) (entries : List FeedEntry) : List Article :=
  (entries.take MAX_ARTICLES).foldl (fun acc e => acc ++ [resolve_entry w e]) []

/-- A parsed feed as `get_feed` reads it: the feed title (`none` when
absent, defaulted to `"Feed"`) and the ordered entry list. -/
structure Feed where
  title : Option String
  entries : List FeedEntry

/-- The success payload of `get_feed`. -/
structure FeedResponse where
  feed : String
  articles : List Article

/-- The feed-processing part of `def get_feed()` (after URL validation,
which the claims do not concern): with `feedparser.parse` abstracted
into the already-parsed `feed` argument,

    if not getattr(feed, "entries", None):
        return jsonify({"error": "Failed to parse feed"}), 400
    articles = []
    for entry in feed.entries[:MAX_ARTICLES]: ...
    feed_title = getattr(feed.feed, "title", "Feed")
    return jsonify({"feed": feed_title, "articles": articles})
-/
def get_feed (w : World) (feed : Feed) : Except String FeedResponse :=
  if feed.entries.isEmpty then Except.error "Failed to parse feed"
  else Except.ok { feed := feed.title.getD "Feed",
                   articles := feed_articles w feed.entries }

/-! ### Concrete worlds and entries used by counterexamples and witnesses -/

/-- A world in which every fetch raises a transport error and every parse
fails. -/
def wNone : World :=
  ⟨fun _ => Except.error "connection refused", fun _ => Except.error "parse error"⟩

/-- An entry whose dict has no keys at all. -/
def entryBare : FeedEntry := ⟨none, none, none, none, none, none⟩

/-- An inline summary of 401 characters, one more than `SUMMARY_CHAR_LIMIT`. -/
def longSummary : String := (List.replicate 401 'a').asString

/-- An entry carrying only the long inline summary. -/
def entryLong : FeedEntry := ⟨none, none, some longSummary, none, none, none⟩

/-- A world whose fetch succeeds with a response that carries no
`Content-Type` header. -/
def wJson : World :=
  ⟨fun _ => Except.ok ⟨none, "json body"⟩, fun _ => Except.error "parse error 2"⟩

/-- A world whose fetch succeeds with an HTML response and whose parse
yields one stripped string. -/
def wHtml : World :=
  ⟨fun _ => Except.ok ⟨some "text/html; charset=utf-8", "<p>hello</p>"⟩,
   fun _ => Except.ok ["hello"]⟩

/-- An entry with a link and no inline summary. -/
def entryLink : FeedEntry := ⟨some "T", some "http://x.test/a", none, none, none, none⟩

/-- An entry whose inline summary is a single space. -/
def entrySpace : FeedEntry := ⟨none, none, some " ", none, none, none⟩

/-- An entry with an ordinary inline summary. -/
def entryInline : FeedEntry :=
  ⟨some "T", some "http://x.test/b", some "An inline summary.", none, some "2024", none⟩

/-- A one-entry feed. -/
def feedOne : Feed := ⟨none, [entryBare]⟩

/-- A `requests.get` oracle that raises on every attempt. -/
def getFail : Nat → Except Nat Unit := fun _ => Except.error 7

/-! ### Helper lemmas about the embedding -/

lemma pyOr_of_ne (s t : String) (h : s ≠ "") : pyOr s t = s := if_neg h

lemma pyOr_eq_empty_iff (s t : String) : pyOr s t = "" ↔ s = "" ∧ t = "" := by
  unfold pyOr
  split
  · simp [*]
  · simp [*]

lemma toList_eq_nil_iff (s : String) : s.toList = [] ↔ s = "" := by
  constructor
  · intro h
    cases s with
    | mk data =>
      cases h
      rfl
  · intro h
    rw [h]
    rfl

lemma pySlice_toList (s : String) (n : Nat) : (pySlice s n).toList = s.toList.take n := rfl

lemma pySlice_length_le (s : String) (n : Nat) : (pySlice s n).length ≤ n := by
  have h : (pySlice s n).length = (s.toList.take n).length := rfl
  rw [h]
  exact List.length_take_le n s.toList

lemma pySlice_ne_empty (s : String) (n : Nat) (hn : n ≠ 0) (hs : s ≠ "") :
    pySlice s n ≠ "" := by
  intro h
  have h1 : s.toList.take n = [] := by
    have := congrArg String.toList h
    rwa [pySlice_toList] at this
  rcases List.take_eq_nil_iff.mp h1 with h2 | h2
  · exact hn h2
  · exact hs ((toList_eq_nil_iff s).mp h2)

lemma resolve_entry_inline (w : World) (e : FeedEntry)
    (h : pyOr (e.summary.getD "") (e.description.getD "") ≠ "") :
    (resolve_entry w e).summary = pyOr (e.summary.getD "") (e.description.getD "") := by
  unfold resolve_entry
  simp [h]

lemma resolve_entry_inline_indep (w w' : World) (e : FeedEntry)
    (h : pyOr (e.summary.getD "") (e.description.getD "") ≠ "") :
    resolve_entry w e = resolve_entry w' e := by
  unfold resolve_entry
  simp [h]

lemma resolve_entry_nolink (w : World) (e : FeedEntry)
    (hl : e.link.getD "" = "") :
    (resolve_entry w e).summary = pyOr (e.summary.getD "") (e.description.getD "") := by
  unfold resolve_entry
  simp [hl]

lemma resolve_entry_derived (w : World) (e : FeedEntry)
    (hs : pyOr (e.summary.getD "") (e.description.getD "") = "")
    (hl : e.link.getD "" ≠ "") :
    (resolve_entry w e).summary =
      match extract_text_from_link w (e.link.getD "") with
      | some t => if t = "" then FALLBACK else pySlice t SUMMARY_CHAR_LIMIT
      | none => FALLBACK := by
  unfold resolve_entry
  simp [hs, hl]

lemma foldl_push_eq_map {α β : Type} (f : α → β) (l : List α) :
    ∀ acc : List β, l.foldl (fun a e => a ++ [f e]) acc = acc ++ l.map f := by
  induction l with
  | nil => intro acc; simp
  | cons x xs ih => intro acc; simp [ih]

lemma feed_articles_eq_map (w : World) (entries : List FeedEntry) :
    feed_articles w entries = (entries.take MAX_ARTICLES).map (resolve_entry w) := by
  unfold feed_articles
  simpa using foldl_push_eq_map (resolve_entry w) (entries.take MAX_ARTICLES) []

/-! ### Claim C1 -/

/-- Claim C1, as stated, is false: for the entry with no inline summary, no
description and no link, processed in a world where every fetch fails, the
resolved summary is not the fallback string — the guard
`if (not summary) and link:` skips the fallback branch when the link is
empty, so the summary stays `""`. -/
theorem no_summary_no_link_cex :
    entryBare.summary.getD "" = "" ∧ entryBare.description.getD "" = "" ∧
    entryBare.link.getD "" = "" ∧
    (resolve_entry wNone entryBare).summary ≠ "No summary available." := by
  refine ⟨rfl, rfl, rfl, ?_⟩
  decide

/-- Claim C1 (amended): for every feed entry whose inline summary and
description are both empty and whose link is empty, the resolved summary is
the empty string (the fallback branch is never reached because it is
guarded by a non-empty link). -/
theorem no_summary_no_link_yields_empty (w : World) (e : FeedEntry)
    (hs : e.summary.getD "" = "") (hd : e.description.getD "" = "")
    (hl : e.link.getD "" = "") :
    (resolve_entry w e).summary = "" := by
  rw [resolve_entry_nolink w e hl, hs, hd]
  rfl

/-- Witness for the amended C1 at a concrete entry and world. -/
theorem no_summary_no_link_yields_empty_witness :
    entryBare.summary.getD "" = "" ∧ entryBare.description.getD "" = "" ∧
    entryBare.link.getD "" = "" ∧ (resolve_entry wNone entryBare).summary = "" :=
  ⟨rfl, rfl, rfl, no_summary_no_link_yields_empty wNone entryBare rfl rfl rfl⟩

/-! ### Claim C2 -/

/-- Claim C2, as stated, is false: the summary of the article resolved from
the keyless entry is the empty string, which is neither non-empty nor the
fallback. -/
theorem summary_never_empty_cex :
    (resolve_entry wNone entryBare).summary = "" := rfl

/-- Claim C2 (amended): every resolved summary is the entry's inline
summary/description (via Python `or`), a truncation of a non-empty
extracted text, or the fallback string; and it can only be empty when the
entry has no inline summary, no description and no link. -/
theorem summary_cases (w : World) (e : FeedEntry) :
    ((resolve_entry w e).summary =
        pyOr (e.summary.getD "") (e.description.getD "") ∨
     (∃ t, extract_text_from_link w (e.link.getD "") = some t ∧ t ≠ "" ∧
        (resolve_entry w e).summary = pySlice t SUMMARY_CHAR_LIMIT) ∨
     (resolve_entry w e).summary = FALLBACK) ∧
    ((resolve_entry w e).summary = "" →
      e.summary.getD "" = "" ∧ e.description.getD "" = "" ∧
      e.link.getD "" = "") := by
  by_cases hs : pyOr (e.summary.getD "") (e.description.getD "") = ""
  · by_cases hl : e.link.getD "" = ""
    · have h1 := resolve_entry_nolink w e hl
      refine ⟨Or.inl h1, fun _ => ?_⟩
      have h2 := (pyOr_eq_empty_iff _ _).mp hs
      exact ⟨h2.1, h2.2, hl⟩
    · have tri :
          ((resolve_entry w e).summary = FALLBACK) ∨
          (∃ t, extract_text_from_link w (e.link.getD "") = some t ∧ t ≠ "" ∧
            (resolve_entry w e).summary = pySlice t SUMMARY_CHAR_LIMIT) := by
        rw [resolve_entry_derived w e hs hl]
        cases hx : extract_text_from_link w (e.link.getD "") with
        | none => exact Or.inl rfl
        | some t =>
          by_cases ht : t = ""
          · left
            show (if t = "" then FALLBACK else pySlice t SUMMARY_CHAR_LIMIT) = FALLBACK
            rw [if_pos ht]
          · right
            refine ⟨t, rfl, ht, ?_⟩
            show (if t = "" then FALLBACK else pySlice t SUMMARY_CHAR_LIMIT) =
              pySlice t SUMMARY_CHAR_LIMIT
            rw [if_neg ht]
      constructor
      · rcases tri with h | h
        · exact Or.inr (Or.inr h)
        · exact Or.inr (Or.inl h)
      · intro hemp
        exfalso
        rcases tri with h | ⟨t, _, ht, hsum⟩
        · rw [hemp] at h
          exact absurd h (by decide)
        · rw [hemp] at hsum
          exact pySlice_ne_empty t SUMMARY_CHAR_LIMIT (by decide) ht hsum.symm
  · have h1 := resolve_entry_inline w e hs
    refine ⟨Or.inl h1, fun hemp => absurd ?_ hs⟩
    rw [← h1]
    exact hemp

/-- Witness for the amended C2 at a concrete entry and world. -/
theorem summary_cases_witness :
    ((resolve_entry wNone entryBare).summary =
        pyOr (entryBare.summary.getD "") (entryBare.description.getD "") ∨
     (∃ t, extract_text_from_link wNone (entryBare.link.getD "") = some t ∧ t ≠ "" ∧
        (resolve_entry wNone entryBare).summary = pySlice t SUMMARY_CHAR_LIMIT) ∨
     (resolve_entry wNone entryBare).summary = FALLBACK) ∧
    ((resolve_entry wNone entryBare).summary = "" →
      entryBare.summary.getD "" = "" ∧ entryBare.description.getD "" = "" ∧
      entryBare.link.getD "" = "") :=
  summary_cases wNone entryBare

/-! ### Claim C3 -/

/-- Claim C3, as stated, is false: an entry whose inline summary has 401
characters yields a resolved summary of length 401, above
`SUMMARY_CHAR_LIMIT` — inline summaries are returned verbatim, without
truncation. -/
theorem summary_limit_cex :
    ¬ ((resolve_entry wNone entryLong).summary.length ≤ SUMMARY_CHAR_LIMIT) := by
  have hlenL : longSummary.length = 401 := by
    show (List.replicate 401 'a').length = 401
    exact List.length_replicate 401 'a'
  have hne : longSummary ≠ "" := by
    intro h
    have h0 : longSummary.length = 0 := by rw [h]; rfl
    rw [hlenL] at h0
    exact absurd h0 (by decide)
  have hpy : pyOr (entryLong.summary.getD "") (entryLong.description.getD "") =
      longSummary := by
    show pyOr longSummary "" = longSummary
    exact pyOr_of_ne _ _ hne
  have h1 : (resolve_entry wNone entryLong).summary = longSummary := by
    rw [resolve_entry_inline wNone entryLong (by rw [hpy]; exact hne), hpy]
  rw [h1, hlenL]
  decide

/-- Claim C3 (amended): whenever the entry has no inline summary and no
description (so the summary is derived or defaulted), the resolved summary
has length at most `SUMMARY_CHAR_LIMIT`; an inline summary, by contrast,
is returned verbatim with no length cap. -/
theorem no_inline_summary_bounded (w : World) (e : FeedEntry)
    (hs : pyOr (e.summary.getD "") (e.description.getD "") = "") :
    (resolve_entry w e).summary.length ≤ SUMMARY_CHAR_LIMIT := by
  by_cases hl : e.link.getD "" = ""
  · rw [resolve_entry_nolink w e hl, hs]
    decide
  · rw [resolve_entry_derived w e hs hl]
    cases hx : extract_text_from_link w (e.link.getD "") with
    | none => decide
    | some t =>
      show (if t = "" then FALLBACK else pySlice t SUMMARY_CHAR_LIMIT).length ≤
        SUMMARY_CHAR_LIMIT
      by_cases ht : t = ""
      · rw [if_pos ht]
        decide
      · rw [if_neg ht]
        exact pySlice_length_le t SUMMARY_CHAR_LIMIT

/-- Witness for the amended C3 at a concrete entry and world. -/
theorem no_inline_summary_bounded_witness :
    pyOr (entryBare.summary.getD "") (entryBare.description.getD "") = "" ∧
    (resolve_entry wNone entryBare).summary.length ≤ SUMMARY_CHAR_LIMIT :=
  ⟨rfl, no_inline_summary_bounded wNone entryBare rfl⟩

/-! ### Claim C4 -/

lemma httpGetGo_allFail {ε ρ : Type} (get : Nat → Except ε ρ) (errs : Nat → ε) (backoff : ℚ) :
    ∀ (fuel i : Nat) (last : Option ε),
      (∀ j, j < fuel → get (i + j) = Except.error (errs (i + j))) →
      httpGetGo get backoff i fuel last =
        ⟨fuel, (List.range' i fuel).map (fun j => backoff * 2 ^ j),
         Except.error (if fuel = 0 then last else some (errs (i + fuel - 1)))⟩ := by
  intro fuel
  induction fuel with
  | zero => intro i last _; simp [httpGetGo]
  | succ n ih =>
    intro i last h
    have h0 : get i = Except.error (errs i) := by simpa using h 0 (Nat.succ_pos n)
    have hrest : ∀ j, j < n → get (i + 1 + j) = Except.error (errs (i + 1 + j)) := by
      intro j hj
      have e1 : i + (j + 1) = i + 1 + j := by omega
      have h2 := h (j + 1) (by omega)
      rwa [e1] at h2
    rw [httpGetGo, h0]
    simp only [ih (i + 1) (some (errs i)) hrest, List.range'_succ, List.map_cons,
      Nat.succ_ne_zero, if_false, HttpTrace.mk.injEq]
    refine ⟨trivial, trivial, ?_⟩
    cases n with
    | zero => simp
    | succ m =>
      simp only [Nat.succ_ne_zero, if_false]
      congr 3
      omega

lemma chain_le_geom (backoff : ℚ) (hb : 0 ≤ backoff) :
    ∀ (n i : Nat), ((List.range' i n).map fun j => backoff * 2 ^ j).Chain' (· ≤ ·) := by
  intro n
  induction n with
  | zero => intro i; simp
  | succ m ih =>
    intro i
    rw [List.range'_succ]
    cases m with
    | zero => simp
    | succ k =>
      rw [List.range'_succ, List.map_cons, List.map_cons, List.chain'_cons]
      constructor
      · exact mul_le_mul_of_nonneg_left
          (pow_le_pow_right₀ (by norm_num) (Nat.le_succ i)) hb
      · have h := ih (i + 1)
        rwa [List.range'_succ, List.map_cons] at h

/-- Claim C4 (confirmed): when every GET attempt raises a transport error,
`http_get` performs exactly `retries + 1` attempts, sleeps
`backoff * 2 ^ i` after failed attempt `i` (a non-decreasing sequence,
given a non-negative backoff), and finally raises the error from the last
attempt instead of returning or swallowing it. -/
theorem http_get_exhausts_retries {ε ρ : Type} (get : Nat → Except ε ρ) (errs : Nat → ε)
    (retries : Nat) (backoff : ℚ) (hb : 0 ≤ backoff)
    (h : ∀ i, i ≤ retries → get i = Except.error (errs i)) :
    (http_get get retries backoff).attempts = retries + 1 ∧
    (http_get get retries backoff).sleeps =
      (List.range (retries + 1)).map (fun i => backoff * 2 ^ i) ∧
    (http_get get retries backoff).sleeps.Chain' (· ≤ ·) ∧
    (http_get get retries backoff).result = Except.error (some (errs retries)) := by
  have key := httpGetGo_allFail get errs backoff (retries + 1) 0 none
    (by intro j hj; exact (by simpa using h j (by omega)))
  rw [http_get, key]
  refine ⟨rfl, ?_, ?_, ?_⟩
  · rw [List.range_eq_range']
  · exact chain_le_geom backoff hb (retries + 1) 0
  · simp

/-- Witness for C4 with the default `retries = 2`, `backoff = 3/5` and an
oracle that fails on every attempt. -/
theorem http_get_exhausts_retries_witness :
    ((0 : ℚ) ≤ 3 / 5) ∧
    ((http_get getFail 2 (3 / 5)).attempts = 2 + 1 ∧
     (http_get getFail 2 (3 / 5)).sleeps =
       (List.range (2 + 1)).map (fun i => (3 / 5 : ℚ) * 2 ^ i) ∧
     (http_get getFail 2 (3 / 5)).sleeps.Chain' (· ≤ ·) ∧
     (http_get getFail 2 (3 / 5)).result = Except.error (some 7)) :=
  ⟨by norm_num,
   http_get_exhausts_retries getFail (fun _ => 7) 2 (3 / 5) (by norm_num) (fun _ _ => rfl)⟩

/-! ### Claim C5 -/

/-- Claim C5 (confirmed): an entry with a non-empty inline
summary/description resolves to exactly that text — no truncation — and
the resolved article does not depend on the world at all (no fetch, no
extraction). -/
theorem inline_summary_verbatim (w w' : World) (e : FeedEntry)
    (h : pyOr (e.summary.getD "") (e.description.getD "") ≠ "") :
    (resolve_entry w e).summary =
      pyOr (e.summary.getD "") (e.description.getD "") ∧
    resolve_entry w e = resolve_entry w' e :=
  ⟨ resolve_entry_inline w e h, resolve_entry_inline_indep w w' e h⟩

/-- Witness for C5: an entry with an inline summary resolves identically in
the all-failing world and in the HTML world. -/
theorem inline_summary_verbatim_witness :
    pyOr (entryInline.summary.getD "") (entryInline.description.getD "") ≠ "" ∧
    ((resolve_entry wNone entryInline).summary =
       pyOr (entryInline.summary.getD "") (entryInline.description.getD "") ∧
     resolve_entry wNone entryInline = resolve_entry wHtml entryInline) :=
  ⟨by decide, inline_summary_verbatim wNone wHtml entryInline (by decide)⟩

/-! ### Claim C6 -/

/-- Claim C6 (confirmed): with no inline summary and a link whose response
declares a `Content-Type` that does not contain `"text/html"` (including a
missing header, which defaults to `""`), the resolved summary is the
fallback string, and `extract_text_from_link` returns `none` whatever the
HTML-extraction oracle is — the extractor is never consulted. -/
theorem non_html_rejected (w : World) (e : FeedEntry) (res : Response)
    (hs : pyOr (e.summary.getD "") (e.description.getD "") = "")
    (hl : e.link.getD "" ≠ "")
    (hf : w.fetch (e.link.getD "") = Except.ok res)
    (hct : pyIn "text/html" (res.contentType.getD "") = false) :
    (resolve_entry w e).summary = "No summary available." ∧
    ∀ soup2 : String → Except String (List String),
      extract_text_from_link ⟨w.fetch, soup2⟩ (e.link.getD "") = none := by
  have hnone : ∀ soup2 : String → Except String (List String),
      extract_text_from_link ⟨w.fetch, soup2⟩ (e.link.getD "") = none := by
    intro soup2
    simp [extract_text_from_link, hf, hct]
  have hw : extract_text_from_link w (e.link.getD "") = none := hnone w.soup
  refine ⟨?_, hnone⟩
  rw [resolve_entry_derived w e hs hl, hw]
  rfl

/-- Witness for C6: a response with no `Content-Type` header degrades the
entry to the fallback summary. -/
theorem non_html_rejected_witness :
    pyOr (entryLink.summary.getD "") (entryLink.description.getD "") = "" ∧
    entryLink.link.getD "" ≠ "" ∧
    wJson.fetch (entryLink.link.getD "") = Except.ok ⟨none, "json body"⟩ ∧
    pyIn "text/html" ((none : Option String).getD "") = false ∧
    (resolve_entry wJson entryLink).summary = "No summary available." :=
  ⟨rfl, by decide, rfl, by decide,
   (non_html_rejected wJson entryLink ⟨none, "json body"⟩ rfl (by decide) rfl
     (by decide)).1⟩

/-! ### Claim C7 -/

/-- Claim C7 (confirmed): with no inline summary and a link returning HTML
whose extraction yields non-empty text, the resolved summary is the first
`SUMMARY_CHAR_LIMIT` characters of the extracted text; it is a prefix of
that text (witnessed by an explicit remainder), and the extracted text is
itself capped at `EXTRACT_CHAR_LIMIT` characters. -/
theorem html_extraction_truncates (w : World) (e : FeedEntry) (res : Response)
    (strs : List String) (extracted : String)
    (hs : pyOr (e.summary.getD "") (e.description.getD "") = "")
    (hl : e.link.getD "" ≠ "")
    (hf : w.fetch (e.link.getD "") = Except.ok res)
    (hct : pyIn "text/html" (res.contentType.getD "") = true)
    (hsoup : w.soup res.text = Except.ok strs)
    (hex : extracted =
      pySlice (String.intercalate " " (strs.map pyStrip)) EXTRACT_CHAR_LIMIT)
    (hne : extracted ≠ "") :
    extract_text_from_link w (e.link.getD "") = some extracted ∧
    (resolve_entry w e).summary = pySlice extracted SUMMARY_CHAR_LIMIT ∧
    (∃ rest, extracted.toList = (resolve_entry w e).summary.toList ++ rest) ∧
    (resolve_entry w e).summary.length ≤ SUMMARY_CHAR_LIMIT ∧
    extracted.length ≤ EXTRACT_CHAR_LIMIT := by
  have h1 : extract_text_from_link w (e.link.getD "") = some extracted := by
    rw [hex]
    simp [extract_text_from_link, hf, hct, hsoup]
  have h2 : (resolve_entry w e).summary = pySlice extracted SUMMARY_CHAR_LIMIT := by
    rw [resolve_entry_derived w e hs hl, h1]
    show (if extracted = "" then FALLBACK else pySlice extracted SUMMARY_CHAR_LIMIT) = _
    rw [if_neg hne]
  refine ⟨h1, h2, ?_, ?_, ?_⟩
  · refine ⟨extracted.toList.drop SUMMARY_CHAR_LIMIT, ?_⟩
    rw [h2, pySlice_toList]
    exact (List.take_append_drop _ _).symm
  · rw [h2]
    exact pySlice_length_le _ _
  · rw [hex]
    exact pySlice_length_le _ _

/-- Witness for C7: a link returning a small HTML page resolves to the
extracted text, here shorter than both caps. -/
theorem html_extraction_truncates_witness :
    pyIn "text/html" ((some "text/html; charset=utf-8").getD "") = true ∧
    ("hello" : String) =
      pySlice (String.intercalate " " (["hello"].map pyStrip)) EXTRACT_CHAR_LIMIT ∧
    ("hello" : String) ≠ "" ∧
    (extract_text_from_link wHtml (entryLink.link.getD "") = some "hello" ∧
     (resolve_entry wHtml entryLink).summary = pySlice "hello" SUMMARY_CHAR_LIMIT ∧
     (∃ rest, ("hello" : String).toList =
        (resolve_entry wHtml entryLink).summary.toList ++ rest) ∧
     (resolve_entry wHtml entryLink).summary.length ≤ SUMMARY_CHAR_LIMIT ∧
     ("hello" : String).length ≤ EXTRACT_CHAR_LIMIT) :=
  ⟨by decide, by decide, by decide,
   html_extraction_truncates wHtml entryLink
     ⟨some "text/html; charset=utf-8", "<p>hello</p>"⟩ ["hello"] "hello"
     rfl (by decide) rfl (by decide) rfl (by decide) (by decide)⟩

/-! ### Claim C8 -/

/-- Claim C8 (confirmed): no per-entry resolution error escapes — a raised
transport error or a raised parse error makes `extract_text_from_link`
return `none`; an absent extraction degrades the entry to the fallback
summary; and the article list is always fully assembled (one article per
taken entry) whatever the world does. -/
theorem per_entry_errors_contained (w : World) (entries : List FeedEntry) :
    (∀ url msg, w.fetch url = Except.error msg →
      extract_text_from_link w url = none) ∧
    (∀ url res msg, w.fetch url = Except.ok res →
      w.soup res.text = Except.error msg →
      extract_text_from_link w url = none) ∧
    (∀ e, pyOr (e.summary.getD "") (e.description.getD "") = "" →
      e.link.getD "" ≠ "" →
      extract_text_from_link w (e.link.getD "") = none →
      (resolve_entry w e).summary = "No summary available.") ∧
    (feed_articles w entries).length = min MAX_ARTICLES entries.length := by
  refine ⟨?_, ?_, ?_, ?_⟩
  · intro url msg h
    simp [extract_text_from_link, h]
  · intro url res msg hf hsoup
    simp [extract_text_from_link, hf, hsoup]
  · intro e hs hl hx
    rw [resolve_entry_derived w e hs hl, hx]
    rfl
  · rw [feed_articles_eq_map]
    simp [List.length_take]

/-- Witness for C8: in the all-failing world the helper returns `none` and
a one-entry feed still yields one article. -/
theorem per_entry_errors_contained_witness :
    extract_text_from_link wNone "http://x.test/a" = none ∧
    (feed_articles wNone [entryBare]).length = min MAX_ARTICLES 1 :=
  ⟨(per_entry_errors_contained wNone [entryBare]).1 "http://x.test/a"
     "connection refused" rfl,
   (per_entry_errors_contained wNone [entryBare]).2.2.2⟩

/-! ### Claim C9 -/

/-- Claim C9 (confirmed): a non-empty parsed feed produces a success
response whose articles are exactly the first `MAX_ARTICLES` entries,
resolved in original order, so there are at most `MAX_ARTICLES` of them. -/
theorem feed_bounded_ordered (w : World) (f : Feed) (h : f.entries ≠ []) :
    ∃ r, get_feed w f = Except.ok r ∧
      r.articles = (f.entries.take MAX_ARTICLES).map (resolve_entry w) ∧
      r.articles.length ≤ MAX_ARTICLES := by
  have hne : f.entries.isEmpty = false := by
    simpa [List.isEmpty_iff] using h
  refine ⟨⟨f.title.getD "Feed", feed_articles w f.entries⟩, ?_, ?_, ?_⟩
  · unfold get_feed
    rw [hne]
    rfl
  · exact feed_articles_eq_map w f.entries
  · rw [feed_articles_eq_map]
    simp [List.length_take]

/-- Witness for C9 on a one-entry feed. -/
theorem feed_bounded_ordered_witness :
    feedOne.entries ≠ [] ∧
    ∃ r, get_feed wNone feedOne = Except.ok r ∧
      r.articles = (feedOne.entries.take MAX_ARTICLES).map (resolve_entry wNone) ∧
      r.articles.length ≤ MAX_ARTICLES :=
  ⟨by simp [feedOne], feed_bounded_ordered wNone feedOne (by simp [feedOne])⟩

/-! ### Claim C10 -/

/-- Claim C10 (confirmed): a whitespace-only inline summary (for example a
single space) is truthy for Python, so it is returned verbatim — no fetch,
no extraction, no fallback — and the resolved article does not depend on
the world. -/
theorem whitespace_summary_kept (w w' : World) (e : FeedEntry)
    (hne : e.summary.getD "" ≠ "")
    (_hws : ∀ c ∈ (e.summary.getD "").toList, c.isWhitespace) :
    (resolve_entry w e).summary = e.summary.getD "" ∧
    resolve_entry w e = resolve_entry w' e := by
  have hp : pyOr (e.summary.getD "") (e.description.getD "") ≠ "" := by
    rw [pyOr_of_ne _ _ hne]
    exact hne
  exact ⟨(resolve_entry_inline w e hp).trans (pyOr_of_ne _ _ hne),
         resolve_entry_inline_indep w w' e hp⟩

/-- Witness for C10: the single-space summary is kept as-is in every
world. -/
theorem whitespace_summary_kept_witness :
    entrySpace.summary.getD "" ≠ "" ∧
    (∀ c ∈ (entrySpace.summary.getD "").toList, c.isWhitespace) ∧
    ((resolve_entry wNone entrySpace).summary = entrySpace.summary.getD "" ∧
     resolve_entry wNone entrySpace = resolve_entry wHtml entrySpace) :=
  ⟨by decide, by decide,
   whitespace_summary_kept wNone wHtml entrySpace (by decide) (by decide)⟩
